import Mathlib

/-!
Verification of the metadata-extraction and interpreter-detection core of
`tools/update_readme.py` (repository monlor/scripts).

The Python module is shallowly embedded below.  Python strings are modelled by
Lean `String` viewed through its `data : List Char` field, so that every string
primitive used by the source (`strip`, `startswith`, `endswith`, `lower`,
`lstrip`, slicing, `split`, `in`, `count`) is an executable structural function
with Python's character-level semantics.  File I/O is cut at the natural
boundary: `extract_script_metadata` receives the file's lines as produced by
`read_text().splitlines()` (with `none` standing for a `UnicodeDecodeError`),
and `detect_executor` receives the raw first line (`none` likewise standing for
a decode failure) together with the file's suffix (`Path.suffix`, dot
included).
-/

namespace UpdateReadme

/-- Whitespace test used by Python's default `str.strip` / `str.split` (ASCII). -/
def pyWS (c : Char) : Bool := c.isWhitespace

/-- Python `s.strip()`: remove leading and trailing whitespace. -/
def pyStrip (s : String) : String :=
  ⟨((s.data.dropWhile pyWS).reverse.dropWhile pyWS).reverse⟩

/-- Python `s.startswith(p)`. -/
def pyStartsWith (p s : String) : Bool := p.data.isPrefixOf s.data

/-- Python `s.endswith(p)`. -/
def pyEndsWith (p s : String) : Bool := p.data.isSuffixOf s.data

/-- Python `s.lower()` (ASCII case folding). -/
def pyLower (s : String) : String := ⟨s.data.map Char.toLower⟩

/-- Python `s.lstrip(c)` for a one-character strip set. -/
def pyLstrip (c : Char) (s : String) : String :=
  ⟨s.data.dropWhile (fun d => d == c)⟩

/-- Python `s[n:]` (character slicing). -/
def pyDrop (n : Nat) (s : String) : String := ⟨s.data.drop n⟩

/-- Python `s[:n]`. -/
def pyTake (n : Nat) (s : String) : String := ⟨s.data.take n⟩

/-- Python `s[:-n]`: everything but the last `n` characters. -/
def pyDropRight (n : Nat) (s : String) : String :=
  ⟨s.data.take (s.data.length - n)⟩

/-- Python `len(s)`. -/
def pyLen (s : String) : Nat := s.data.length

/-- Split a character list at every character satisfying `p`, keeping empty
pieces (the splitting skeleton shared by `str.split(sep)` and `str.split()`). -/
def splitPred (p : Char → Bool) : List Char → List (List Char)
  | [] => [[]]
  | c :: cs =>
    let r := splitPred p cs
    if p c then [] :: r
    else
      match r with
      | [] => [[c]]
      | h :: t => (c :: h) :: t

/-- Python `s.split(sep)` for a one-character separator: empty pieces are kept
(`"a,,b".split(",") == ["a","","b"]`, `"".split(",") == [""]`). -/
def pySplitChar (sep : Char) (s : String) : List String :=
  (splitPred (fun c => c == sep) s.data).map String.mk

/-- Python `s.split()` with no argument: split on whitespace runs, dropping
empty pieces. -/
def pySplitWS (s : String) : List String :=
  ((splitPred pyWS s.data).filter (fun l => !l.isEmpty)).map String.mk

/-- Python `needle in haystack`: contiguous substring test. -/
def containsSub (needle : List Char) : List Char → Bool
  | [] => needle.isEmpty
  | c :: t => needle.isPrefixOf (c :: t) || containsSub needle t

/-- Helper for `countSub`: a cooldown counter skips the tail of a match so that
occurrences are counted without overlap, as Python's `str.count` does. -/
def countSubAux (needle : List Char) : Nat → List Char → Nat
  | _ + 1, [] => 0
  | 0, [] => 0
  | k + 1, _ :: t => countSubAux needle k t
  | 0, c :: t =>
    if needle.isPrefixOf (c :: t) then 1 + countSubAux needle (needle.length - 1) t
    else countSubAux needle 0 t

/-- Python `haystack.count(needle)`: non-overlapping occurrence count. -/
def countSub (needle haystack : List Char) : Nat := countSubAux needle 0 haystack

/-- Python `os.path`-style basename: the text after the last `/`. -/
def pyBasename (s : String) : String :=
  ⟨(s.data.reverse.takeWhile (fun c => c != '/')).reverse⟩

/-! Section: Static tables of the module -/

/-- The `DEFAULT_OS` from the source. -/
def DEFAULT_OS : List String := ["Linux"]

/-- The `OS_ALIASES` from the source, in declaration order. -/
def OS_ALIASES : List (String × String) :=
  [("linux", "Linux"), ("gnu/linux", "Linux"), ("openwrt", "OpenWrt"),
   ("open-wrt", "OpenWrt"), ("lede", "OpenWrt"), ("mac", "macOS"),
   ("macos", "macOS"), ("osx", "macOS"), ("darwin", "macOS"),
   ("windows", "Windows"), ("win", "Windows")]

/-- The `mapping` dict inside `detect_executor`, in insertion (iteration)
order. -/
def EXECUTOR_MAPPING : List (String × String) :=
  [("bash", "bash"), ("sh", "sh"), ("python3", "python3"),
   ("python", "python"), ("node", "node"), ("ruby", "ruby"),
   ("perl", "perl"), ("pwsh", "pwsh"), ("powershell", "powershell")]

/-! Section: Interpreter detection (`detect_executor`) -/

/-- The `detect_executor` from the source.  `firstLineRaw = none` models a
`UnicodeDecodeError` while reading the first line (the `except` arm sets
`first_line = ""`); otherwise the raw first line is stripped as by
`handle.readline().strip()`.  `suffixRaw` is `Path.suffix` of the script. -/
def detect_executor (firstLineRaw : Option String) (suffixRaw : String) : String :=
  let first_line : String :=
    match firstLineRaw with
    | none => ""
    | some s => pyStrip s
  let interpreter : String :=
    if pyStartsWith "#!" first_line then
      let shebang := pyStrip (pyDrop 2 first_line)
      match pySplitWS shebang with
      | [] => ""
      | [p0] => p0
      | p0 :: p1 :: _ => if pyEndsWith "env" p0 then p1 else p0
    else ""
  let interpreter := pyLower interpreter
  let found : Option String :=
    if interpreter ≠ "" then
      (EXECUTOR_MAPPING.find? (fun kv => containsSub kv.1.data interpreter.data)).map
        (fun kv => kv.2)
    else none
  match found with
  | some v => v
  | none =>
    let suffix := pyLower suffixRaw
    if suffix = ".bash" then "bash"
    else if suffix = ".sh" then "sh"
    else if suffix = ".py" then "python3"
    else if suffix = ".rb" then "ruby"
    else if suffix = ".js" ∨ suffix = ".ts" then "node"
    else if suffix = ".ps1" then "pwsh"
    else "sh"

/-! Section: Metadata extraction (`extract_script_metadata`) -/

/-- The loop state of `extract_script_metadata`: the four local variables
mutated by the scanning loop. -/
structure ExtractState where
  description : String
  os_candidates : List String
  in_docstring : Bool
  docstring_delimiter : String
deriving DecidableEq, Repr

/-- The state before the first line: `description = ""`, no OS candidates,
not inside a docstring. -/
def initState : ExtractState := ⟨"", [], false, ""⟩

/-- Outcome of one loop iteration: `go` is Python `continue` (or falling
through to the next line), `halt` is Python `break`. -/
inductive LineStep where
  | go (s : ExtractState)
  | halt (s : ExtractState)
deriving DecidableEq, Repr

/-- The OS-declaration marker tuple iterated by the source, in order. -/
def OS_DECL_MARKERS : List String :=
  ["supports:", "supported os:", "os:", "platform:", "platforms:"]

/-- The `_normalize_os_label` from the source: trim, return `""` if empty,
otherwise look the lower-cased text up in `OS_ALIASES` and fall back to the
trimmed original. -/
def normalize_os_label (label : String) : String :=
  let cleaned := pyStrip label
  if cleaned = "" then ""
  else
    let key := pyLower cleaned
    match OS_ALIASES.find? (fun kv => kv.1 = key) with
    | some kv => kv.2
    | none => cleaned

/-- One step of the `_dedupe_preserve_order` loop over the `(seen, result)`
pair: skip empty items and items already seen, otherwise record the item in
`seen` and append it to `result`. -/
def dedupe_step (p : List String × List String) (item : String) :
    List String × List String :=
  if item = "" then p
  else if p.1.contains item then p
  else (item :: p.1, p.2 ++ [item])

/-- The `_dedupe_preserve_order` from the source. -/
def dedupe_preserve_order (items : List String) : List String :=
  (items.foldl dedupe_step ([], [])).2

/-- The `is_comment` / `comment_text` assignment of the scanning loop: a `#`
line (the shebang case is already gone) sheds all leading `#`, a `//` line all
leading `/`, each followed by a strip. -/
def commentSplit (line : String) : Bool × String :=
  if pyStartsWith "#" line then (true, pyStrip (pyLstrip '#' line))
  else if pyStartsWith "//" line then (true, pyStrip (pyLstrip '/' line))
  else (false, "")

/-- One iteration of the scanning loop of `extract_script_metadata`, applied
to the already-stripped line (the loop computes `line = raw_line.strip()`
first; see `processLine`). -/
def processStripped (st : ExtractState) (line : String) : LineStep :=
  if line = "" then .go st
  else if pyStartsWith "#!" line then .go st
  else if st.in_docstring then
    if pyEndsWith st.docstring_delimiter line then
      let content := pyStrip (pyDropRight (pyLen st.docstring_delimiter) line)
      let st :=
        if content ≠ "" ∧ st.description = "" then
          { st with description := content }
        else st
      .go { st with in_docstring := false }
    else
      let st :=
        if st.description = "" ∧ line ≠ "" then
          { st with description := line }
        else st
      .go st
  else
    let comm := commentSplit line
    if comm.1 then
      let comment_text := comm.2
      let lower_comment := pyLower comment_text
      match OS_DECL_MARKERS.find? (fun m => pyStartsWith m lower_comment) with
      | some m =>
        let os_string := pyStrip (pyDrop (pyLen m) comment_text)
        let labels :=
          ((pySplitChar ',' os_string).map normalize_os_label).filter
            (fun l => l ≠ "")
        .go { st with os_candidates := st.os_candidates ++ labels }
      | none =>
        if comment_text ≠ "" ∧ st.description = "" then
          .go { st with description := comment_text }
        else .go st
    else if pyStartsWith "\"\"\"" line ∨ pyStartsWith "'''" line then
      let st := { st with docstring_delimiter := pyTake 3 line }
      let delim := st.docstring_delimiter
      let remainder := pyStrip (pyDrop 3 line)
      if pyEndsWith delim remainder ∧ pyLen remainder > 3 then
        let content := pyStrip (pyDropRight (pyLen delim) remainder)
        let st :=
          if content ≠ "" ∧ st.description = "" then
            { st with description := content }
          else st
        .halt st
      else
        let st :=
          if remainder ≠ "" ∧ st.description = "" then
            { st with description := remainder }
          else st
        if countSub delim.data line.data ≥ 2 then .halt st
        else .go { st with in_docstring := true }
    else .halt st

/-- One full iteration of the scanning loop on a raw line: strip, then
process. -/
def processLine (st : ExtractState) (raw_line : String) : LineStep :=
  processStripped st (pyStrip raw_line)

/-- The scanning loop of `extract_script_metadata` over the file's lines. -/
def runLines : ExtractState → List String → ExtractState
  | st, [] => st
  | st, l :: ls =>
    match processLine st l with
    | .go st' => runLines st' ls
    | .halt st' => st'

/-- The `extract_script_metadata` from the source, over the file's lines as
produced by `read_text().splitlines()`; `none` models a
`UnicodeDecodeError` raised by `read_text`. -/
def extract_script_metadata (text : Option (List String)) :
    String × List String :=
  match text with
  | none => ("Unable to decode file for description", DEFAULT_OS)
  | some lines =>
    let final := runLines initState lines
    let description :=
      if final.description = "" then "No description available"
      else final.description
    let supported_os := dedupe_preserve_order final.os_candidates
    let supported_os := if supported_os = [] then DEFAULT_OS else supported_os
    (description, supported_os)

/-! Section: Catalog building and rendering (`build_categories`, `build_readme`)

The directory tree is modelled as data: the repository root is a list of its
immediate subdirectories (`DirEntry`), each holding the plain files directly
inside it (`FileEntry`).  A `FileEntry` carries the file name, its
`Path.suffix`, the raw first line read by `detect_executor` and the line list
read by `extract_script_metadata` (each `none` on a decode failure, which the
source recovers per file).  `Path.iterdir` yields entries in an unspecified
order which the source immediately passes through `sorted`; sorting a listing
by path is, within a single parent directory, sorting by name, modelled with
`List.insertionSort` on the name field. -/

structure FileEntry where
  name : String
  suffix : String
  firstLine : Option String
  lines : Option (List String)
deriving DecidableEq, Repr

structure DirEntry where
  name : String
  files : List FileEntry
deriving DecidableEq, Repr

/-- The `IGNORED_DIRS` from the source. -/
def IGNORED_DIRS : List String := [".git", "tools", ".github", "__pycache__"]

/-- The `SUPPORTED_SUFFIXES` from the source. -/
def SUPPORTED_SUFFIXES : List String :=
  [".sh", ".bash", ".py", ".rb", ".js", ".ts", ".ps1"]

/-- The fields of the source's `ScriptInfo` dataclass that the renderer
consumes; `relPath` is `relative_path.as_posix()`. -/
structure ScriptInfo where
  name : String
  relPath : String
  description : String
  executor : String
  supported_os : List String
deriving DecidableEq, Repr

/-- The source's `Category` dataclass (the unused `path` field dropped). -/
structure Category where
  name : String
  scripts : List ScriptInfo
deriving DecidableEq, Repr

/-- Name order on directory entries (the order `sorted` uses on the paths of a
common parent). -/
def dirLE (a b : DirEntry) : Prop := a.name ≤ b.name

/-- Name order on file entries. -/
def fileLE (a b : FileEntry) : Prop := a.name ≤ b.name

instance : DecidableRel dirLE := fun a b =>
  inferInstanceAs (Decidable (a.name ≤ b.name))

instance : DecidableRel fileLE := fun a b =>
  inferInstanceAs (Decidable (a.name ≤ b.name))

instance : IsTotal DirEntry dirLE := ⟨fun a b => le_total a.name b.name⟩

instance : IsTrans DirEntry dirLE := ⟨fun _ _ _ h h' => le_trans h h'⟩

instance : IsTotal FileEntry fileLE := ⟨fun a b => le_total a.name b.name⟩

instance : IsTrans FileEntry fileLE := ⟨fun _ _ _ h h' => le_trans h h'⟩

/-- The filter of `iter_category_dirs`: skip the ignore list and hidden or
underscore-prefixed names (the `is_dir()` test is part of the tree model). -/
def dirOk (d : DirEntry) : Bool :=
  !(IGNORED_DIRS.contains d.name) && !(pyStartsWith "." d.name)
    && !(pyStartsWith "_" d.name)

/-- The `iter_category_dirs` from the source: sort the root listing, then filter. -/
def iter_category_dirs (root : List DirEntry) : List DirEntry :=
  (List.insertionSort dirLE root).filter dirOk

/-- The filter of `iter_scripts`: keep a file whose suffix is empty or
recognized (the `is_dir()` skip is part of the tree model). -/
def fileOk (f : FileEntry) : Bool :=
  f.suffix = "" || SUPPORTED_SUFFIXES.contains f.suffix

/-- The `ScriptInfo` record `iter_scripts` builds for one file of a category. -/
def buildScript (catName : String) (f : FileEntry) : ScriptInfo :=
  let md := extract_script_metadata f.lines
  { name := f.name
    relPath := catName ++ "/" ++ f.name
    description := md.1
    executor := detect_executor f.firstLine f.suffix
    supported_os := md.2 }

/-- The `iter_scripts` from the source: sort the directory listing, filter, build
one record per file. -/
def iter_scripts (d : DirEntry) : List ScriptInfo :=
  ((List.insertionSort fileLE d.files).filter fileOk).map (buildScript d.name)

/-- The `Category` record `build_categories` assembles for one directory. -/
def categoryOf (d : DirEntry) : Category :=
  ⟨d.name, iter_scripts d⟩

/-- The `build_categories` from the source. -/
def build_categories (root : List DirEntry) : List Category :=
  (iter_category_dirs root).map categoryOf

/-- The `REPO_SLUG` from the source. -/
def REPO_SLUG : String := "monlor/scripts"

/-- The `RAW_BASE_URL` from the source. -/
def RAW_BASE_URL : String :=
  "https://raw.githubusercontent.com/" ++ REPO_SLUG ++ "/main"

/-- The `github_url` property of `ScriptInfo`. -/
def github_url (s : ScriptInfo) : String :=
  "https://github.com/" ++ REPO_SLUG ++ "/blob/main/" ++ s.relPath

/-- The `remote_command` property of `ScriptInfo`. -/
def remote_command (s : ScriptInfo) : String :=
  "curl -sSL " ++ RAW_BASE_URL ++ "/" ++ s.relPath ++ " | " ++ s.executor

/-- The `anchor` property of `Category`: lower-case and replace spaces by
dashes. -/
def anchor (name : String) : String :=
  ⟨(pyLower name).data.map (fun c => if c == ' ' then '-' else c)⟩

/-- The `render_badges` from the source. -/
def render_badges (cats : List Category) : String :=
  let total_categories := cats.length
  let total_scripts := (cats.map (fun c => c.scripts.length)).foldl (fun a b => a + b) 0
  let license_badge :=
    "[![License: MIT](https://img.shields.io/badge/license-MIT-green.svg)](LICENSE)"
  let scripts_badge :=
    "![Scripts " ++ toString total_scripts
      ++ "](https://img.shields.io/badge/scripts-" ++ toString total_scripts
      ++ "-blue.svg)"
  let categories_badge :=
    "![Categories " ++ toString total_categories
      ++ "](https://img.shields.io/badge/categories-" ++ toString total_categories
      ++ "-lightgrey.svg)"
  String.intercalate " " [license_badge, scripts_badge, categories_badge]

/-- The `render_toc` from the source. -/
def render_toc (cats : List Category) : String :=
  let items := cats.map (fun c =>
    "- [" ++ c.name ++ " (" ++ toString c.scripts.length ++ ")](#"
      ++ anchor c.name ++ ")")
  if items = [] then
    "- No categories detected yet. Add subdirectories and regenerate the README."
  else String.intercalate "\n" items

/-- The `description.replace("|", "\\|")` from `render_category_section`. -/
def escapePipes (s : String) : String :=
  ⟨s.data.foldr (fun c acc => if c == '|' then '\\' :: '|' :: acc else c :: acc) []⟩

/-- The `render_category_section` from the source. -/
def render_category_section (c : Category) : String :=
  let heading := "## " ++ c.name ++ "\n"
  if c.scripts = [] then
    heading ++ "> No scripts in this category yet. Add files and regenerate the README.\n"
  else
    let table_header :=
      "| Script | Summary | Supported OS | Remote Execution |\n| --- | --- | --- | --- |"
    let rows := c.scripts.map (fun s =>
      "| [`" ++ s.name ++ "`](" ++ github_url s ++ ") | "
        ++ escapePipes s.description ++ " | "
        ++ String.intercalate ", " s.supported_os ++ " | `"
        ++ remote_command s ++ "` |")
    heading ++ String.intercalate "\n" (table_header :: rows) ++ "\n"

/-- Longest common prefix, as the mismatch scan of `textwrap.dedent`. -/
def commonPre : List Char → List Char → List Char
  | [], _ => []
  | _, [] => []
  | a :: as, b :: bs => if a == b then a :: commonPre as bs else []

/-- The margin fold of `textwrap.dedent`: all-whitespace lines are skipped,
other lines contribute their leading whitespace run to the running common
margin. -/
def marginStep (margin : Option (List Char)) (line : List Char) :
    Option (List Char) :=
  if line.all pyWS then margin
  else
    let indent := line.takeWhile pyWS
    match margin with
    | none => some indent
    | some m =>
      if m.isPrefixOf indent then some m
      else if indent.isPrefixOf m then some indent
      else some (commonPre m indent)

/-- The `textwrap.dedent`: lines holding only blanks or tabs are first normalized
to empty, then the common leading whitespace margin of the remaining non-empty
lines is removed from every line that carries it. -/
def pyDedent (s : String) : String :=
  let lines := splitPred (fun c => c == '\n') s.data
  let lines := lines.map (fun l =>
    if l ≠ [] ∧ l.all (fun c => c == ' ' || c == '\t') then [] else l)
  let margin := (lines.foldl marginStep none).getD []
  let lines := lines.map (fun l =>
    if margin.isPrefixOf l then l.drop margin.length else l)
  String.intercalate "\n" (lines.map String.mk)

/-- The `build_readme` from the source: the f-string template with the computed
badge line, navigation list and category sections interpolated, passed through
`textwrap.dedent(...).strip() + "\n"`. -/
def build_readme (cats : List Category) : String :=
  let badges := render_badges cats
  let toc := render_toc cats
  let sections := String.intercalate "\n" (cats.map render_category_section)
  let sections :=
    if sections = "" then
      "## Category Index\n> No script categories detected yet. Create subdirectories and rerun the generator to populate this section.\n"
    else sections
  let content :=
    "# monlor/scripts\n\n" ++ badges
      ++ "\n\nCollection of personal automation scripts organized by category for quick discovery and remote execution.\n\n## Category Navigation\n"
      ++ toc ++ "\n\n" ++ sections
      ++ "\n\n## Maintenance\n\n- Each category maps to a subdirectory in the repository root.\n- Script descriptions are automatically pulled from the first non-empty comment at the top of each file.\n- Add a comment line such as \"Supports: Linux, OpenWrt\" to enumerate compatible operating systems (defaults to Linux when omitted).\n- Export script parameters with safe defaults so commands can run non-interactively; document overrides in the script usage output when applicable.\n- Remote execution commands automatically select interpreters based on each script's shebang; adjust manually if special tooling is required.\n- Regenerate this document with `python tools/update_readme.py`; avoid manual edits to the generated sections.\n\n## Contribution\n\n- Clone the repository: `git clone https://github.com/"
      ++ REPO_SLUG
      ++ ".git`\n- Regenerate the index after adding scripts: `python tools/update_readme.py`\n- Remote execution example: `curl -sSL "
      ++ RAW_BASE_URL
      ++ "/path/to/script.sh | sh`\n- Describe your script by placing a concise comment on the first non-empty line (for example, `# Sync router IP list`).\n- Declare supported systems with a comment such as `# Supports: Linux, OpenWrt`; omit to default to Linux only.\n"
  pyStrip (pyDedent content) ++ "\n"

/-- The full generator run over the modelled tree: what one invocation of the
script computes before writing or comparing. -/
def generate (root : List DirEntry) : String :=
  build_readme (build_categories root)

/-! Section: Statements of the specification, written from the spec's words

The following definitions follow claim wordings (not the source) and exist to
be compared with the source-derived functions above. -/

/-- The shebang-to-canonical-token scan as both the claim and the source state
it: walk `EXECUTOR_MAPPING` in order and return the first value whose key is a
substring of the interpreter name. -/
def scanMapping (interp : String) : Option String :=
  (EXECUTOR_MAPPING.find? (fun kv => containsSub kv.1.data interp.data)).map
    (fun kv => kv.2)

/-- The extension fallback table of the detector, keyed by the lower-cased
suffix. -/
def extensionFallback (suffixRaw : String) : String :=
  let suffix := pyLower suffixRaw
  if suffix = ".bash" then "bash"
  else if suffix = ".sh" then "sh"
  else if suffix = ".py" then "python3"
  else if suffix = ".rb" then "ruby"
  else if suffix = ".js" ∨ suffix = ".ts" then "node"
  else if suffix = ".ps1" then "pwsh"
  else "sh"

/-- The interpreter detector exactly as claim C5 words it: when the first
token's basename is `env` and a second token exists the interpreter name is
the second token, otherwise it is the first token's *basename*; then
lower-case and scan the table. -/
def detect_executor_claimed (firstLineRaw : Option String) (suffixRaw : String) :
    String :=
  let first_line : String :=
    match firstLineRaw with
    | none => ""
    | some s => pyStrip s
  let interpreter : String :=
    if pyStartsWith "#!" first_line then
      match pySplitWS (pyStrip (pyDrop 2 first_line)) with
      | [] => ""
      | [p0] => pyBasename p0
      | p0 :: p1 :: _ => if pyBasename p0 = "env" then p1 else pyBasename p0
    else ""
  let interpreter := pyLower interpreter
  match (if interpreter ≠ "" then scanMapping interpreter else none) with
  | some v => v
  | none => extensionFallback suffixRaw

/-- The interpreter detector as claim C5 must be amended: the `env` test is a
suffix test on the whole first token, and in the other branch the interpreter
name is the whole first token, directory part included. -/
def detect_executor_stated (firstLineRaw : Option String) (suffixRaw : String) :
    String :=
  let first_line : String :=
    match firstLineRaw with
    | none => ""
    | some s => pyStrip s
  let interpreter : String :=
    if pyStartsWith "#!" first_line then
      match pySplitWS (pyStrip (pyDrop 2 first_line)) with
      | [] => ""
      | [p0] => p0
      | p0 :: p1 :: _ => if pyEndsWith "env" p0 then p1 else p0
    else ""
  let interpreter := pyLower interpreter
  match (if interpreter ≠ "" then scanMapping interpreter else none) with
  | some v => v
  | none => extensionFallback suffixRaw

/-- The docstring-opening step as claim C6 must be amended: the same-line
close test is `remainder.endswith(delimiter) and len(remainder) > 3`, the
provisional capture keeps the whole remainder (quote characters included),
and scanning also stops when the delimiter occurs at least twice in the
line. -/
def docstringOpenStated (st : ExtractState) (line : String) : LineStep :=
  let delim := pyTake 3 line
  let remainder := pyStrip (pyDrop 3 line)
  if pyEndsWith delim remainder ∧ pyLen remainder > 3 then
    let content := pyStrip (pyDropRight 3 remainder)
    .halt (if content ≠ "" ∧ st.description = "" then
            { st with description := content, docstring_delimiter := delim }
           else { st with docstring_delimiter := delim })
  else
    let captured :=
      if remainder ≠ "" ∧ st.description = "" then
        { st with description := remainder, docstring_delimiter := delim }
      else { st with docstring_delimiter := delim }
    if countSub delim.data line.data ≥ 2 then .halt captured
    else .go { captured with in_docstring := true }

/-- Two modelled trees hold the same contents, merely enumerated in different
orders: the directory lists are a permutation of one another and, matching the
directories up, each file list is a permutation of its counterpart.  This is
exactly what two runs of the generator over an unchanged directory tree may
see, since `Path.iterdir` guarantees no order. -/
def TreeSameUpToOrder (t₁ t₂ : List DirEntry) : Prop :=
  ∃ u : List DirEntry, t₁.Perm u ∧
    List.Forall₂ (fun a b => a.name = b.name ∧ a.files.Perm b.files) u t₂

/-- The filesystem invariant a real directory tree satisfies: sibling
directory names are distinct, and file names within one directory are
distinct. -/
def GoodTree (t : List DirEntry) : Prop :=
  (t.map DirEntry.name).Nodup ∧
    ∀ d ∈ t, (d.files.map FileEntry.name).Nodup

/-! Section: Shared helper lemmas -/

/-- A successful `startswith` exposes the prefix in the character data. -/
theorem startsWith_shape {p s : String} (h : pyStartsWith p s = true) :
    ∃ t, s.data = p.data ++ t := by
  unfold pyStartsWith at h
  rw [List.isPrefixOf_iff_prefix] at h
  obtain ⟨t, ht⟩ := h
  exact ⟨t, ht.symm⟩

/-- A string starting with a non-empty prefix is non-empty. -/
theorem ne_empty_of_startsWith {p s : String} (h : pyStartsWith p s = true)
    (hp : p.data ≠ []) : s ≠ "" := by
  obtain ⟨t, ht⟩ := startsWith_shape h
  intro he
  subst he
  exact hp (List.append_eq_nil.mp ht.symm).1

/-- The fold of `_dedupe_preserve_order` keeps the result duplicate-free and
covered by the seen set. -/
theorem dedupe_foldl_invariant (items : List String) :
    ∀ p : List String × List String, p.2.Nodup → (∀ x ∈ p.2, x ∈ p.1) →
      (items.foldl dedupe_step p).2.Nodup ∧
        ∀ x ∈ (items.foldl dedupe_step p).2, x ∈ (items.foldl dedupe_step p).1 := by
  induction items with
  | nil => exact fun p hn hc => ⟨hn, hc⟩
  | cons i is ih =>
    intro p hn hc
    simp only [List.foldl_cons]
    apply ih
    · unfold dedupe_step
      split
      · exact hn
      · split
        · exact hn
        · refine List.Nodup.append hn (List.nodup_singleton i) ?_
          intro x hx hx'
          rw [List.mem_singleton] at hx'
          subst hx'
          rename_i hcont
          exact hcont (by simpa using hc x hx)
    · unfold dedupe_step
      split
      · exact hc
      · split
        · exact hc
        · intro x hx
          rcases List.mem_append.mp hx with hx | hx
          · exact List.mem_cons_of_mem _ (hc x hx)
          · rw [List.mem_singleton] at hx
            subst hx
            exact List.mem_cons_self _ _

/-- The `_dedupe_preserve_order` returns a duplicate-free list. -/
theorem dedupe_preserve_order_nodup (items : List String) :
    (dedupe_preserve_order items).Nodup :=
  (dedupe_foldl_invariant items ([], []) List.nodup_nil (by simp)).1

/-- Sorted-by-key lists that are permutations of one another and have
duplicate-free keys are equal. -/
theorem eq_of_perm_of_sorted_key {α : Type} (key : α → String) :
    ∀ l₁ l₂ : List α, l₁.Perm l₂ →
      l₁.Sorted (fun a b => key a ≤ key b) →
      l₂.Sorted (fun a b => key a ≤ key b) →
      (l₁.map key).Nodup → l₁ = l₂ := by
  have maps : ∀ l₁ l₂ : List α, l₁.Perm l₂ →
      l₁.Sorted (fun a b => key a ≤ key b) →
      l₂.Sorted (fun a b => key a ≤ key b) →
      l₁.map key = l₂.map key := by
    intro l₁ l₂ hp hs₁ hs₂
    exact List.eq_of_perm_of_sorted (hp.map key)
      (List.pairwise_map.mpr hs₁) (List.pairwise_map.mpr hs₂)
  intro l₁
  induction l₁ with
  | nil => intro l₂ hp _ _ _; exact (hp.symm.eq_nil).symm
  | cons a as ih =>
    intro l₂ hp hs₁ hs₂ hn
    have hm := maps (a :: as) l₂ hp hs₁ hs₂
    cases l₂ with
    | nil => exact absurd hp.eq_nil (by simp)
    | cons b bs =>
      simp only [List.map_cons, List.cons.injEq] at hm
      have hn' : key a ∉ as.map key ∧ (as.map key).Nodup :=
        List.nodup_cons.mp (by simpa using hn)
      have hab : a = b := by
        have hmem : a ∈ b :: bs := hp.subset (List.mem_cons_self a as)
        rcases List.mem_cons.mp hmem with h | h
        · exact h
        · exfalso
          have hmem2 : key a ∈ bs.map key := List.mem_map_of_mem key h
          rw [← hm.2] at hmem2
          exact hn'.1 hmem2
      subst hab
      have htail : as = bs :=
        ih bs hp.cons_inv (List.Sorted.of_cons hs₁) (List.Sorted.of_cons hs₂)
          hn'.2
      rw [htail]

/-- Without a shebang on the (stripped) first line the detector reaches the
extension fallback. -/
theorem detect_executor_no_shebang (l ext : String)
    (h : pyStartsWith "#!" (pyStrip l) = false) :
    detect_executor (some l) ext = extensionFallback ext := by
  simp only [detect_executor, h]
  rfl

/-! Section: Claim theorems -/

/-- Claim C1: for a file whose lines are the comment `# Sync router IP list`,
a blank line, the comment `# Supports: Linux, OpenWrt` and then code, the
metadata extractor returns description "Sync router IP list" and supported
OS list ["Linux", "OpenWrt"]. -/
theorem claim_C1 :
    extract_script_metadata
        (some ["# Sync router IP list", "", "# Supports: Linux, OpenWrt",
               "ip route add default"]) =
      ("Sync router IP list", ["Linux", "OpenWrt"]) := by decide

/-- Claim C2: the interpreter detector returns "python3" for the shebang
`#!/usr/bin/env python3` and "bash" for `#!/bin/bash` (whatever the suffix),
"pwsh" for a `.ps1` file with no shebang, "ruby" for a `.rb` file with no
shebang, and "sh" when there is no shebang and the extension is unrecognized
or missing. -/
theorem claim_C2 :
    (∀ ext, detect_executor (some "#!/usr/bin/env python3") ext = "python3")
    ∧ (∀ ext, detect_executor (some "#!/bin/bash") ext = "bash")
    ∧ (∀ l, pyStartsWith "#!" (pyStrip l) = false →
        detect_executor (some l) ".ps1" = "pwsh")
    ∧ (∀ l, pyStartsWith "#!" (pyStrip l) = false →
        detect_executor (some l) ".rb" = "ruby")
    ∧ (∀ l ext, pyStartsWith "#!" (pyStrip l) = false →
        pyLower ext ∉ [".bash", ".sh", ".py", ".rb", ".js", ".ts", ".ps1"] →
        detect_executor (some l) ext = "sh") := by
  refine ⟨fun _ => rfl, fun _ => rfl, ?_, ?_, ?_⟩
  · intro l h
    rw [detect_executor_no_shebang l ".ps1" h]
    rfl
  · intro l h
    rw [detect_executor_no_shebang l ".rb" h]
    rfl
  · intro l ext h hext
    simp only [List.mem_cons, List.not_mem_nil, or_false, not_or] at hext
    obtain ⟨h1, h2, h3, h4, h5, h6, h7⟩ := hext
    rw [detect_executor_no_shebang l ext h]
    unfold extensionFallback
    rw [if_neg h1, if_neg h2, if_neg h3, if_neg h4,
      if_neg (show ¬(pyLower ext = ".js" ∨ pyLower ext = ".ts") from
        fun hc => hc.elim h5 h6),
      if_neg h7]

/-- Witness for claim C2 at concrete inputs: an empty first line with a
`.ps1` suffix, a plain command line with a `.rb` suffix, and a plain command
line with a `.txt` suffix. -/
theorem claim_C2_witness :
    detect_executor (some "") ".ps1" = "pwsh"
    ∧ detect_executor (some "ls -l") ".rb" = "ruby"
    ∧ detect_executor (some "ls -l") ".txt" = "sh" :=
  ⟨claim_C2.2.2.1 "" (by decide),
   claim_C2.2.2.2.1 "ls -l" (by decide),
   claim_C2.2.2.2.2 "ls -l" ".txt" (by decide) (by decide)⟩

/-- Claim C4: labels of an OS-declaration comment are normalized through the
alias table and de-duplicated preserving first-seen order, so declaring
"Linux, linux, OpenWrt" yields exactly ["Linux", "OpenWrt"]; the same holds
for the normalize-then-dedupe pipeline applied to the comma-split pieces
directly. -/
theorem claim_C4 :
    (extract_script_metadata
        (some ["# Supports: Linux, linux, OpenWrt", "exit 0"])).2 =
      ["Linux", "OpenWrt"]
    ∧ dedupe_preserve_order
        ((pySplitChar ',' "Linux, linux, OpenWrt").map normalize_os_label) =
      ["Linux", "OpenWrt"] := by decide

/-- Claim C5 counterexample: for the shebang `#!/x/genv ruby` the claim's
basename rule makes the first token's basename "genv" (not "env"), so the
claimed interpreter name is "genv", no mapping key matches, and the `.py`
fallback gives "python3" — but the code tests `endswith("env")` on the whole
token and returns "ruby". -/
theorem claim_C5_counterexample :
    detect_executor (some "#!/x/genv ruby") ".py" = "ruby"
    ∧ detect_executor_claimed (some "#!/x/genv ruby") ".py" = "python3"
    ∧ detect_executor (some "#!/x/genv ruby") ".py" ≠
        detect_executor_claimed (some "#!/x/genv ruby") ".py" := by decide

/-- Claim C5 as amended: the detector behaves as the claim says except that
the env test is `endswith("env")` on the whole first token and the
non-env interpreter name is the whole first token (not its basename); with
that change the described procedure equals the code on every input. -/
theorem claim_C5 (firstLineRaw : Option String) (suffixRaw : String) :
    detect_executor firstLineRaw suffixRaw =
      detect_executor_stated firstLineRaw suffixRaw := rfl

/-- Claim C8: a per-file decode failure is recovered: the metadata extractor
returns the sentinel error description with the default OS list, and the
interpreter detector behaves as on a file with no first line, reaching the
extension fallback. -/
theorem claim_C8 :
    extract_script_metadata none =
      ("Unable to decode file for description", ["Linux"])
    ∧ ∀ ext, detect_executor none ext = extensionFallback ext :=
  ⟨rfl, fun _ => rfl⟩

/-- Claim C10: a line whose stripped form begins with `#!` is skipped in
every state of the metadata extractor — the loop state is returned unchanged
and scanning continues, so such a line never sets the description, never
contributes OS labels, never closes a docstring and never stops the scan. -/
theorem claim_C10 (st : ExtractState) (raw : String)
    (h : pyStartsWith "#!" (pyStrip raw) = true) :
    processLine st raw = .go st := by
  unfold processLine processStripped
  rw [if_neg (ne_empty_of_startsWith h (by decide)), if_pos h]

/-- Witness for claim C10: a shebang line with surrounding blanks, fed to a
state that is inside an open docstring, is skipped with the state intact. -/
theorem claim_C10_witness :
    processLine ⟨"", ["OpenWrt"], true, "\"\"\""⟩ "  #!/bin/bash  " =
      .go ⟨"", ["OpenWrt"], true, "\"\"\""⟩ :=
  claim_C10 ⟨"", ["OpenWrt"], true, "\"\"\""⟩ "  #!/bin/bash  " (by decide)

/-- Claim C3 counterexample: the "exactly when" direction fails in both
halves.  A file whose first comment is literally "No description available"
DOES capture a description from a comment, yet the result equals the
sentinel; a file declaring exactly "Supports: Linux" DOES contribute an OS
label, yet the result equals ["Linux"]. -/
theorem claim_C3_counterexample :
    (runLines initState ["# No description available", "exit 0"]).description ≠ ""
    ∧ (extract_script_metadata (some ["# No description available", "exit 0"])).1 =
        "No description available"
    ∧ (runLines initState ["# Supports: Linux", "exit 0"]).os_candidates ≠ []
    ∧ (extract_script_metadata (some ["# Supports: Linux", "exit 0"])).2 =
        ["Linux"] := by decide

/-- Claim C3 as amended: for every decodable input the description is
non-empty and equals the sentinel "No description available" whenever the
scan captured nothing (the converse fails, see the counterexample), and the
OS list is non-empty, duplicate-free, and equals ["Linux"] whenever no OS
declaration contributed a label (converse likewise failing). -/
theorem claim_C3 (lines : List String) :
    (extract_script_metadata (some lines)).1 ≠ ""
    ∧ ((runLines initState lines).description = "" →
        (extract_script_metadata (some lines)).1 = "No description available")
    ∧ (extract_script_metadata (some lines)).2 ≠ []
    ∧ (extract_script_metadata (some lines)).2.Nodup
    ∧ ((runLines initState lines).os_candidates = [] →
        (extract_script_metadata (some lines)).2 = ["Linux"]) := by
  simp only [extract_script_metadata]
  refine ⟨?_, ?_, ?_, ?_, ?_⟩
  · split
    · decide
    · assumption
  · intro h
    rw [if_pos h]
  · split
    · decide
    · assumption
  · split
    · decide
    · exact dedupe_preserve_order_nodup _
  · intro h
    rw [h]
    rfl

/-- Witness for claim C3 at a concrete file with neither a description
convention nor an OS declaration. -/
theorem claim_C3_witness :
    (extract_script_metadata (some ["exit 0"])).1 ≠ ""
    ∧ (extract_script_metadata (some ["exit 0"])).1 = "No description available"
    ∧ (extract_script_metadata (some ["exit 0"])).2 = ["Linux"] :=
  ⟨(claim_C3 ["exit 0"]).1,
   (claim_C3 ["exit 0"]).2.1 (by decide),
   (claim_C3 ["exit 0"]).2.2.2.2 (by decide)⟩

/-- Claim C7: a comment line whose lower-cased text starts with an
OS-declaration marker is consumed as an OS declaration even when it yields
zero labels: the scan continues with the description and docstring mode
untouched, so the line is never a description candidate. -/
theorem claim_C7 (st : ExtractState) (line : String)
    (hdoc : st.in_docstring = false)
    (hsheb : pyStartsWith "#!" line = false)
    (hcomm : (commentSplit line).1 = true)
    (hos : OS_DECL_MARKERS.any
        (fun m => pyStartsWith m (pyLower (commentSplit line).2)) = true) :
    ∃ st', processStripped st line = .go st'
      ∧ st'.description = st.description
      ∧ st'.in_docstring = false := by
  have hne : line ≠ "" := by
    unfold commentSplit at hcomm
    by_cases h1 : pyStartsWith "#" line = true
    · exact ne_empty_of_startsWith h1 (by decide)
    · rw [if_neg (by simpa using h1)] at hcomm
      by_cases h2 : pyStartsWith "//" line = true
      · exact ne_empty_of_startsWith h2 (by decide)
      · rw [if_neg (by simpa using h2)] at hcomm
        exact absurd hcomm (by decide)
  have hfind : (OS_DECL_MARKERS.find?
      (fun m => pyStartsWith m (pyLower (commentSplit line).2))).isSome := by
    rw [List.find?_isSome]
    exact List.any_eq_true.mp hos
  obtain ⟨m, hm⟩ := Option.isSome_iff_exists.mp hfind
  unfold processStripped
  rw [if_neg hne, if_neg (by simp [hsheb]), if_neg (by simp [hdoc]),
    if_pos hcomm]
  simp only [hm]
  exact ⟨_, rfl, rfl, hdoc⟩

/-- Witness for claim C7: the zero-label declaration "# Supports:" recorded
in the spec's open question, processed in the start state. -/
theorem claim_C7_witness :
    ∃ st', processStripped initState "# Supports:" = .go st'
      ∧ st'.description = initState.description
      ∧ st'.in_docstring = false :=
  claim_C7 initState "# Supports:" rfl (by decide) (by decide) (by decide)

/-- Claim C6 counterexample: for the single-line file `"""abc""" tail` the
remainder after the opening delimiter contains the closing delimiter, so the
claim demands description "abc" (the content between the delimiters) — but
the code requires the remainder to *end* with the delimiter and otherwise
captures the whole remainder, quotes included, before stopping via the
two-occurrence test. -/
theorem claim_C6_counterexample :
    (extract_script_metadata (some ["\"\"\"abc\"\"\" tail"])).1 = "abc\"\"\" tail"
    ∧ "abc\"\"\" tail" ≠ ("abc" : String) := by decide

/-- Claim C6 as amended: on a line opening a triple-quote docstring in
SCANNING state, the extractor extracts the content between the delimiters and
stops only when the remainder after the opening delimiter *ends* with the
closing delimiter and is longer than the delimiter; otherwise it captures the
whole non-empty remainder provisionally (quote characters included, when no
description is held yet), then stops if the delimiter occurs at least twice
in the line and enters DOCSTRING state otherwise. -/
theorem claim_C6 (st : ExtractState) (line : String)
    (hdoc : st.in_docstring = false)
    (hq : pyStartsWith "\"\"\"" line = true ∨ pyStartsWith "'''" line = true) :
    processStripped st line = docstringOpenStated st line := by
  obtain ⟨d⟩ := line
  rcases hq with h | h
  · obtain ⟨t, hdata⟩ := startsWith_shape h
    replace hdata : d = '"' :: '"' :: '"' :: t := hdata
    subst hdata
    have hne : String.mk ('"' :: '"' :: '"' :: t) ≠ "" :=
      fun hc => by simpa using congrArg String.data hc
    have h1 : pyStartsWith "#!" ⟨'"' :: '"' :: '"' :: t⟩ = false := rfl
    have h2 : pyStartsWith "#" ⟨'"' :: '"' :: '"' :: t⟩ = false := rfl
    have h3 : pyStartsWith "//" ⟨'"' :: '"' :: '"' :: t⟩ = false := rfl
    have h4 : pyStartsWith "\"\"\"" ⟨'"' :: '"' :: '"' :: t⟩ = true := by
      simp [pyStartsWith, List.isPrefixOf]
    have htake : pyTake 3 ⟨'"' :: '"' :: '"' :: t⟩ = "\"\"\"" := rfl
    have hdrop : pyDrop 3 ⟨'"' :: '"' :: '"' :: t⟩ = String.mk t := rfl
    unfold processStripped docstringOpenStated commentSplit
    simp only [hne, h1, h2, h3, h4, hdoc, htake, hdrop,
      (show pyLen "\"\"\"" = 3 from rfl), Bool.false_eq_true, if_false,
      ite_false, eq_self_iff_true, true_or, if_true, ite_true]
  · obtain ⟨t, hdata⟩ := startsWith_shape h
    replace hdata : d = '\'' :: '\'' :: '\'' :: t := hdata
    subst hdata
    have hne : String.mk ('\'' :: '\'' :: '\'' :: t) ≠ "" :=
      fun hc => by simpa using congrArg String.data hc
    have h1 : pyStartsWith "#!" ⟨'\'' :: '\'' :: '\'' :: t⟩ = false := rfl
    have h2 : pyStartsWith "#" ⟨'\'' :: '\'' :: '\'' :: t⟩ = false := rfl
    have h3 : pyStartsWith "//" ⟨'\'' :: '\'' :: '\'' :: t⟩ = false := rfl
    have h4 : pyStartsWith "\"\"\"" ⟨'\'' :: '\'' :: '\'' :: t⟩ = false := rfl
    have h5 : pyStartsWith "'''" ⟨'\'' :: '\'' :: '\'' :: t⟩ = true := by
      simp [pyStartsWith, List.isPrefixOf]
    have htake : pyTake 3 ⟨'\'' :: '\'' :: '\'' :: t⟩ = "'''" := rfl
    have hdrop : pyDrop 3 ⟨'\'' :: '\'' :: '\'' :: t⟩ = String.mk t := rfl
    unfold processStripped docstringOpenStated commentSplit
    simp only [hne, h1, h2, h3, h4, h5, hdoc, htake, hdrop,
      (show pyLen "'''" = 3 from rfl), Bool.false_eq_true, if_false,
      ite_false, eq_self_iff_true, false_or, or_true, true_or, if_true,
      ite_true]

/-- Witness for claim C6: the spec's docstring scenario line
`"""Restart service."""`, processed in the start state, halts with the
description "Restart service.". -/
theorem claim_C6_witness :
    processStripped initState "\"\"\"Restart service.\"\"\"" =
      docstringOpenStated initState "\"\"\"Restart service.\"\"\""
    ∧ docstringOpenStated initState "\"\"\"Restart service.\"\"\"" =
        .halt ⟨"Restart service.", [], false, "\"\"\""⟩ :=
  ⟨claim_C6 initState "\"\"\"Restart service.\"\"\"" rfl (Or.inl (by decide)),
   by decide⟩

/-- Directories with equal names and permuted file listings (with distinct
file names) produce the same script list: sorting cancels the enumeration
order. -/
theorem iter_scripts_of_perm (d₁ d₂ : DirEntry) (hname : d₁.name = d₂.name)
    (hperm : d₁.files.Perm d₂.files)
    (hnod : (d₁.files.map FileEntry.name).Nodup) :
    iter_scripts d₁ = iter_scripts d₂ := by
  have heq : List.insertionSort fileLE d₁.files =
      List.insertionSort fileLE d₂.files := by
    apply eq_of_perm_of_sorted_key FileEntry.name
    · exact (List.perm_insertionSort fileLE d₁.files).trans
        (hperm.trans (List.perm_insertionSort fileLE d₂.files).symm)
    · exact List.sorted_insertionSort fileLE d₁.files
    · exact List.sorted_insertionSort fileLE d₂.files
    · exact ((List.perm_insertionSort fileLE d₁.files).map
        FileEntry.name).nodup_iff.mpr hnod
  unfold iter_scripts
  rw [heq, hname]

/-- The function `categoryOf` is invariant under file-list permutation. -/
theorem categoryOf_congr (d₁ d₂ : DirEntry) (hname : d₁.name = d₂.name)
    (hperm : d₁.files.Perm d₂.files)
    (hnod : (d₁.files.map FileEntry.name).Nodup) :
    categoryOf d₁ = categoryOf d₂ := by
  unfold categoryOf
  rw [hname, iter_scripts_of_perm d₁ d₂ hname hperm hnod]

/-- Along a pointwise name-equal, file-permuted match-up of directory lists,
filtering by `dirOk` and building categories gives equal results. -/
theorem filter_map_categoryOf_eq {u t₂ : List DirEntry}
    (h : List.Forall₂ (fun a b => a.name = b.name ∧ a.files.Perm b.files) u t₂)
    (hnod : ∀ d ∈ u, (d.files.map FileEntry.name).Nodup) :
    (u.filter dirOk).map categoryOf = (t₂.filter dirOk).map categoryOf := by
  induction h with
  | nil => rfl
  | @cons a b as bs hab hrest ih =>
    have hok : dirOk a = dirOk b := by unfold dirOk; rw [hab.1]
    have hcat : categoryOf a = categoryOf b :=
      categoryOf_congr a b hab.1 hab.2 (hnod a (List.mem_cons_self a as))
    have ih' := ih (fun d hd => hnod d (List.mem_cons_of_mem _ hd))
    simp only [List.filter_cons, hok]
    by_cases hb : dirOk b = true
    · rw [if_pos hb, if_pos hb, List.map_cons, List.map_cons, hcat, ih']
    · rw [if_neg hb, if_neg hb, ih']

/-- The function `build_categories` is a function of the tree's contents alone: trees equal
up to enumeration order (with distinct sibling names) build equal category
lists. -/
theorem build_categories_eq (t₁ t₂ : List DirEntry)
    (h : TreeSameUpToOrder t₁ t₂) (hg : GoodTree t₁) :
    build_categories t₁ = build_categories t₂ := by
  obtain ⟨u, hperm, hrel⟩ := h
  have hnodu : ∀ d ∈ u, (d.files.map FileEntry.name).Nodup :=
    fun d hd => hg.2 d (hperm.mem_iff.mpr hd)
  show ((List.insertionSort dirLE t₁).filter dirOk).map categoryOf =
    ((List.insertionSort dirLE t₂).filter dirOk).map categoryOf
  apply eq_of_perm_of_sorted_key Category.name
  · have p₁ : ((List.insertionSort dirLE t₁).filter dirOk).map categoryOf |>.Perm
        ((t₁.filter dirOk).map categoryOf) :=
      (((List.perm_insertionSort dirLE t₁).filter dirOk).map categoryOf)
    have p₂ : ((t₁.filter dirOk).map categoryOf).Perm
        ((u.filter dirOk).map categoryOf) :=
      ((hperm.filter dirOk).map categoryOf)
    have p₃ : (u.filter dirOk).map categoryOf = (t₂.filter dirOk).map categoryOf :=
      filter_map_categoryOf_eq hrel hnodu
    have p₄ : ((t₂.filter dirOk).map categoryOf).Perm
        (((List.insertionSort dirLE t₂).filter dirOk).map categoryOf) :=
      (((List.perm_insertionSort dirLE t₂).filter dirOk).map categoryOf).symm
    exact p₁.trans (p₂.trans (p₃ ▸ p₄))
  · exact List.pairwise_map.mpr
      ((List.sorted_insertionSort dirLE t₁).filter dirOk)
  · exact List.pairwise_map.mpr
      ((List.sorted_insertionSort dirLE t₂).filter dirOk)
  · have hsorted_nodup :
        ((List.insertionSort dirLE t₁).map DirEntry.name).Nodup :=
      ((List.perm_insertionSort dirLE t₁).map DirEntry.name).nodup_iff.mpr hg.1
    have hsub : (((List.insertionSort dirLE t₁).filter dirOk).map
        DirEntry.name).Sublist ((List.insertionSort dirLE t₁).map DirEntry.name) :=
      (List.filter_sublist _).map DirEntry.name
    have : (((List.insertionSort dirLE t₁).filter dirOk).map
        DirEntry.name).Nodup := hsorted_nodup.sublist hsub
    simpa [List.map_map, Function.comp] using this

/-- Claim C9: the generated document is a deterministic function of the
directory tree's contents — two generator runs that enumerate an unchanged
tree (same directories with the same files, in whatever order the filesystem
yields them, with distinct sibling names as on a real filesystem) produce
byte-identical output. -/
theorem claim_C9 (t₁ t₂ : List DirEntry) (h : TreeSameUpToOrder t₁ t₂)
    (hg : GoodTree t₁) : generate t₁ = generate t₂ := by
  unfold generate
  rw [build_categories_eq t₁ t₂ h hg]

/-- Witness for claim C9: a one-category tree whose two files arrive in
opposite enumeration orders generates identical documents. -/
theorem claim_C9_witness :
    generate [⟨"net",
      [⟨"a.sh", ".sh", some "#!/bin/bash", some ["# Sync router IP list"]⟩,
       ⟨"b.py", ".py", some "#!/usr/bin/env python3",
        some ["\"\"\"Restart service.\"\"\""]⟩]⟩] =
    generate [⟨"net",
      [⟨"b.py", ".py", some "#!/usr/bin/env python3",
        some ["\"\"\"Restart service.\"\"\""]⟩,
       ⟨"a.sh", ".sh", some "#!/bin/bash", some ["# Sync router IP list"]⟩]⟩] :=
  claim_C9 _ _
    ⟨_, List.Perm.refl _,
      List.Forall₂.cons ⟨rfl, List.Perm.swap _ _ _⟩ List.Forall₂.nil⟩
    ⟨by decide, by decide⟩

end UpdateReadme
